import Mathlib

/-!
Verification of the assignment/quiz submission and grading workflow of the
university-lms backend (FastAPI + SQLAlchemy).  The Python sources under
`app/` are shallowly embedded: ORM rows become structures, the session
becomes an explicit `DB` value threaded through each operation, raised
application exceptions become `Except AppError`, SQL `DateTime` instants
become `Int`, and SQL `Float` mark/score columns become `Rat`.
String UUID keys stay `String`.  Presentation-only columns (titles,
descriptions, file metadata, timestamps not compared by the logic) are
omitted; every column that any embedded code path reads or writes is kept.
-/

namespace LMS

/-- Error taxonomy of `app/utils/exceptions.py` (the business-logic kinds),
plus `integrityError` for a database unique-constraint violation
(SQLAlchemy `IntegrityError`), which is not an application exception. -/
inductive AppError where
  | notFound (detail : String)
  | forbidden (detail : String)
  | conflict (detail : String)
  | badRequest (detail : String)
  | integrityError (constraint : String)
  deriving DecidableEq, Repr

/-- Row of `quizzes` (`app/models/quiz.py`, class `Quiz`). -/
structure Quiz where
  quiz_id : String
  offering_id : String
  created_by_id : String
  created_by_role : String
  quiz_type : String
  deadline : Int
  max_attempts : Option Nat
  is_published : Bool
  is_active : Bool
  deriving DecidableEq, Repr

/-- Row of `questions` (`app/models/quiz.py`, class `Question`). -/
structure Question where
  question_id : String
  quiz_id : String
  question_type : String
  marks : Rat
  order_number : Nat
  deriving DecidableEq, Repr

/-- Row of `question_options` (`app/models/quiz.py`, class `QuestionOption`). -/
structure QuestionOption where
  option_id : String
  question_id : String
  option_label : String
  is_correct : Bool
  order_number : Nat
  deriving DecidableEq, Repr

/-- Row of `quiz_attempts` (`app/models/quiz.py`, class `QuizAttempt`). -/
structure QuizAttempt where
  attempt_id : String
  quiz_id : String
  student_id : String
  attempt_number : Nat
  started_at : Int
  submitted_at : Option Int
  score : Option Rat
  is_completed : Bool
  deriving DecidableEq, Repr

/-- Row of `quiz_answers` (`app/models/quiz.py`, class `QuizAnswer`).
`awarded_marks` and `is_correct` are nullable columns. -/
structure QuizAnswer where
  attempt_id : String
  question_id : String
  selected_option_id : Option String
  answer_text : Option String
  awarded_marks : Option Rat
  is_correct : Option Bool
  deriving DecidableEq, Repr

/-- Row of `quiz_file_submissions` (`app/models/quiz.py`,
class `QuizFileSubmission`). -/
structure QuizFileSubmission where
  submission_id : String
  quiz_id : String
  student_id : String
  submitted_file_id : String
  submitted_at : Int
  is_late : Bool
  deriving DecidableEq, Repr

/-- Row of `quiz_grades` (`app/models/quiz.py`, class `QuizGrade`);
exactly one of `attempt_id` / `file_submission_id` is set
(check constraint `ck_one_source_only`). -/
structure QuizGrade where
  grade_id : String
  attempt_id : Option String
  file_submission_id : Option String
  graded_by_id : String
  graded_by_role : String
  final_score : Rat
  deriving DecidableEq, Repr

/-- Row of `uploaded_files` (`app/models/file.py`, class `UploadedFile`). -/
structure UploadedFile where
  file_id : String
  uploaded_by : String
  is_active : Bool
  deriving DecidableEq, Repr

/-- Row of `assignments` (`app/models/assignment.py`, class `Assignment`). -/
structure Assignment where
  assignment_id : String
  offering_id : String
  created_by_id : String
  created_by_role : String
  reference_file_id : Option String
  deadline : Int
  total_marks : Rat
  is_active : Bool
  deriving DecidableEq, Repr

/-- Row of `assignment_submissions` (`app/models/assignment.py`,
class `AssignmentSubmission`). -/
structure AssignmentSubmission where
  submission_id : String
  assignment_id : String
  student_id : String
  submitted_file_id : String
  submitted_at : Int
  is_late : Bool
  deriving DecidableEq, Repr

/-- Row of `assignment_grades` (`app/models/assignment.py`,
class `AssignmentGrade`). -/
structure AssignmentGrade where
  grade_id : String
  submission_id : String
  graded_by_id : String
  graded_by_role : String
  final_score : Rat
  deriving DecidableEq, Repr

/-- The persistent state: one list per table, in insertion order
(SQLAlchemy session + database). -/
structure DB where
  quizzes : List Quiz
  questions : List Question
  options : List QuestionOption
  attempts : List QuizAttempt
  quiz_answers : List QuizAnswer
  quiz_file_submissions : List QuizFileSubmission
  quiz_grades : List QuizGrade
  assignments : List Assignment
  assignment_submissions : List AssignmentSubmission
  assignment_grades : List AssignmentGrade
  files : List UploadedFile
  deriving DecidableEq, Repr

/-- The empty database. -/
def DB.empty : DB :=
  ⟨[], [], [], [], [], [], [], [], [], [], []⟩

/-- `QuizRepository.get_quiz_by_id`: `query(Quiz).filter(quiz_id == ..,
is_active == True).first()`. -/
def get_quiz_by_id (db : DB) (quiz_id : String) : Option Quiz :=
  (db.quizzes.filter (fun q => q.quiz_id == quiz_id && q.is_active)).head?

/-- `QuizRepository.get_quiz_with_details` differs from `get_quiz_by_id`
only in eager-loading options/files; same row. -/
def get_quiz_with_details (db : DB) (quiz_id : String) : Option Quiz :=
  get_quiz_by_id db quiz_id

/-- `QuizRepository.get_question_by_id`: lookup by primary key
(no `is_active` filter in the source). -/
def get_question_by_id (db : DB) (question_id : String) : Option Question :=
  (db.questions.filter (fun q => q.question_id == question_id)).head?

/-- The `query(QuestionOption).filter(option_id == ans.get("selected_option_id")).first()`
inside `QuizRepository.submit_attempt`; a `None` id matches no row. -/
def lookupOption (db : DB) (oid : Option String) : Option QuestionOption :=
  match oid with
  | none => none
  | some o => (db.options.filter (fun opt => opt.option_id == o)).head?

/-- `FileRepository.get_file_by_id`: lookup filtered by `is_active`. -/
def get_file_by_id (db : DB) (file_id : String) : Option UploadedFile :=
  (db.files.filter (fun f => f.file_id == file_id && f.is_active)).head?

/-- `QuizRepository.get_student_attempts_for_quiz`: all attempts of one
student for one quiz.  The source orders by `attempt_number`; since
`start_attempt` always appends `max + 1`, insertion order coincides
with that order, and the callers only use length and maximum. -/
def get_student_attempts_for_quiz (db : DB) (quiz_id student_id : String) :
    List QuizAttempt :=
  db.attempts.filter (fun a => a.quiz_id == quiz_id && a.student_id == student_id)

/-- The attempt numbers currently stored for one (quiz, student) pair. -/
def attemptNumbers (db : DB) (quiz_id student_id : String) : List Nat :=
  (get_student_attempts_for_quiz db quiz_id student_id).map (·.attempt_number)

/-- `query(func.max(QuizAttempt.attempt_number))...scalar()` with the
`(last_attempt or 0)` coalescing of `QuizRepository.start_attempt`. -/
def maxAttemptNumber (db : DB) (quiz_id student_id : String) : Nat :=
  (attemptNumbers db quiz_id student_id).foldr Nat.max 0

/-- Extract the success payload of a store operation, with a fallback;
used to name the post-state of a successful call. -/
def getOk {α : Type} (r : Except AppError α) (fallback : α) : α :=
  match r with
  | .ok d => d
  | .error _ => fallback

/-- Python truthiness of the nullable integer column `max_attempts`:
`None` and `0` are falsy. -/
def optTruthy : Option Nat → Bool
  | none => false
  | some m => m != 0

/-- One element of `QuizAttemptCreate.answers`
(`app/schemas/quiz.py`, class `StudentAnswer`). -/
structure StudentAnswer where
  question_id : String
  selected_option_id : Option String
  answer_text : Option String
  deriving DecidableEq, Repr

/-- `QuizRepository.start_attempt`: computes `max attempt_number + 1` for
the pair and inserts the new in-progress attempt.  The fresh UUID primary
key is passed in as `attempt_id`.  The number exceeds every stored number
for the pair, so `uq_student_attempt` cannot fire. -/
def start_attempt (db : DB) (quiz_id student_id attempt_id : String)
    (now : Int) : QuizAttempt × DB :=
  let n := maxAttemptNumber db quiz_id student_id + 1
  let att : QuizAttempt :=
    { attempt_id := attempt_id, quiz_id := quiz_id, student_id := student_id,
      attempt_number := n, started_at := now, submitted_at := none,
      score := none, is_completed := false }
  (att, { db with attempts := db.attempts ++ [att] })

/-- `QuizService.start_quiz_attempt`: published-quiz lookup, deadline
check, max-attempts check, then `start_attempt`. -/
def start_quiz_attempt (db : DB) (quiz_id student_id attempt_id : String)
    (now : Int) : Except AppError DB :=
  match get_quiz_by_id db quiz_id with
  | none => .error (.notFound "Quiz not found or not published")
  | some quiz =>
    if !quiz.is_published then
      .error (.notFound "Quiz not found or not published")
    else if quiz.deadline < now then
      .error (.badRequest "Quiz deadline has passed")
    else
      let attempts := get_student_attempts_for_quiz db quiz_id student_id
      match quiz.max_attempts with
      | some m =>
        if m ≠ 0 ∧ attempts.length ≥ m then
          .error (.conflict s!"Maximum {m} attempts reached")
        else
          .ok (start_attempt db quiz_id student_id attempt_id now).2
      | none => .ok (start_attempt db quiz_id student_id attempt_id now).2

/-- The `for ans in answers` loop of `QuizRepository.submit_attempt`:
returns the `QuizAnswer` rows added to the session (in submission order)
and the accumulated `total_score`.  An answer whose `question_id` matches
no row is skipped (`continue`); for MCQ/TrueFalse the selected option is
looked up by id alone (the source never checks it belongs to the answered
question) and full marks are awarded iff it exists and `is_correct`;
otherwise `awarded = 0.0` and `is_correct` stays `None`. -/
def gradeLoop (db : DB) (attempt_id : String) :
    List StudentAnswer → List QuizAnswer × Rat
  | [] => ([], 0)
  | ans :: rest =>
    let acc := gradeLoop db attempt_id rest
    match get_question_by_id db ans.question_id with
    | none => acc
    | some q =>
      let objective := q.question_type == "MCQ" || q.question_type == "TrueFalse"
      let hit := objective &&
        (match lookupOption db ans.selected_option_id with
         | some o => o.is_correct
         | none => false)
      let awarded : Rat := if hit then q.marks else 0
      let row : QuizAnswer :=
        { attempt_id := attempt_id, question_id := ans.question_id,
          selected_option_id := ans.selected_option_id,
          answer_text := ans.answer_text,
          awarded_marks := some awarded,
          is_correct := if hit then some true else none }
      (row :: acc.1, awarded + acc.2)

/-- The key sets checked by `uq_one_answer_per_question` on
`quiz_answers`. -/
def answerKeys (rows : List QuizAnswer) : List (String × String) :=
  rows.map (fun a => (a.attempt_id, a.question_id))

/-- `QuizRepository.submit_attempt`: marks the attempt completed, inserts
one `QuizAnswer` per graded answer and stores the accumulated score.
The whole call flushes as one transaction; a duplicate
(attempt, question) key violates `uq_one_answer_per_question` and the
transaction fails instead of committing. -/
def submit_attempt (db : DB) (attempt_id : String)
    (answers : List StudentAnswer) (submitted_at : Int) :
    Except AppError DB :=
  match (db.attempts.filter (fun a => a.attempt_id == attempt_id)).head? with
  | none => .error (.notFound "Attempt not found")
  | some _ =>
    let graded := gradeLoop db attempt_id answers
    let newAnswers := db.quiz_answers ++ graded.1
    if (answerKeys newAnswers).Nodup then
      .ok { db with
        attempts := db.attempts.map (fun a =>
          if a.attempt_id == attempt_id then
            { a with submitted_at := some submitted_at,
                     is_completed := true, score := some graded.2 }
          else a),
        quiz_answers := newAnswers }
    else
      .error (.integrityError "uq_one_answer_per_question")

/-- `QuizService.submit_digital_quiz`: ownership and completion checks,
then delegates to `submit_attempt` with the current instant. -/
def submit_digital_quiz (db : DB) (attempt_id : String)
    (answers : List StudentAnswer) (student_id : String) (now : Int) :
    Except AppError DB :=
  match (db.attempts.filter (fun a => a.attempt_id == attempt_id)).head? with
  | none => .error (.notFound "Attempt not found")
  | some attempt =>
    if attempt.student_id ≠ student_id then
      .error (.forbidden "Not your attempt")
    else if attempt.is_completed then
      .error (.conflict "Quiz already submitted")
    else
      submit_attempt db attempt_id answers now

/-- `QuizRepository.submit_file_quiz`: duplicate check for the
(quiz, student) pair, then insert (`is_late` has server default false). -/
def repo_submit_file_quiz (db : DB)
    (quiz_id student_id file_id submission_id : String) (now : Int) :
    Except AppError (QuizFileSubmission × DB) :=
  if (db.quiz_file_submissions.filter (fun s =>
      s.quiz_id == quiz_id && s.student_id == student_id)).isEmpty then
    let sub : QuizFileSubmission :=
      { submission_id := submission_id, quiz_id := quiz_id,
        student_id := student_id, submitted_file_id := file_id,
        submitted_at := now, is_late := false }
    .ok (sub, { db with quiz_file_submissions := db.quiz_file_submissions ++ [sub] })
  else
    .error (.conflict "You have already submitted this quiz")

/-- `QuizService.submit_file_quiz`: quiz-type and deadline checks, file
ownership check, repository insert, then the in-session
`submission_record.is_late = submitted_at > quiz.deadline` update. -/
def submit_file_quiz (db : DB) (quiz_id file_id student_id submission_id : String)
    (now : Int) : Except AppError DB :=
  match get_quiz_by_id db quiz_id with
  | none => .error (.badRequest "Invalid quiz type")
  | some quiz =>
    if quiz.quiz_type ≠ "FileUpload" then
      .error (.badRequest "Invalid quiz type")
    else if quiz.deadline < now then
      .error (.badRequest "Deadline passed")
    else
      match get_file_by_id db file_id with
      | none => .error (.forbidden "Invalid file")
      | some f =>
        if f.uploaded_by ≠ student_id then
          .error (.forbidden "Invalid file")
        else
          match repo_submit_file_quiz db quiz_id student_id file_id submission_id now with
          | .error e => .error e
          | .ok (sub, db1) =>
            .ok { db1 with quiz_file_submissions :=
              db1.quiz_file_submissions.map (fun s =>
                if s == sub then
                  { s with is_late := decide (quiz.deadline < s.submitted_at) }
                else s) }

/-- Payload of `QuizCreate` (`app/schemas/quiz.py`); the columns the
embedded logic reads.  `is_published` defaults to `false` in the schema
but is client-settable. -/
structure QuizCreateData where
  offering_id : String
  quiz_type : String
  deadline : Int
  max_attempts : Option Nat
  is_published : Bool
  instructions_file_id : Option String
  deriving DecidableEq, Repr

/-- `QuizService.create_quiz`: role check, future-deadline check, insert
via `QuizRepository.create_quiz` (all payload columns copied onto the
row), then instructions-file ownership check before commit.  A failed
file check aborts the transaction, so the inserted row is discarded. -/
def create_quiz (db : DB) (data : QuizCreateData)
    (creator_id creator_role new_id : String) (now : Int) :
    Except AppError (Quiz × DB) :=
  if creator_role ≠ "Professor" ∧ creator_role ≠ "AssociateTeacher" then
    .error (.forbidden "Only teachers can create quizzes")
  else if data.deadline ≤ now then
    .error (.badRequest "Deadline must be in the future")
  else
    let q : Quiz :=
      { quiz_id := new_id, offering_id := data.offering_id,
        created_by_id := creator_id, created_by_role := creator_role,
        quiz_type := data.quiz_type, deadline := data.deadline,
        max_attempts := data.max_attempts,
        is_published := data.is_published, is_active := true }
    let db1 := { db with quizzes := db.quizzes ++ [q] }
    match data.instructions_file_id with
    | none => .ok (q, db1)
    | some fid =>
      match get_file_by_id db1 fid with
      | none => .error (.forbidden "Invalid instructions file")
      | some f =>
        if f.uploaded_by ≠ creator_id then
          .error (.forbidden "Invalid instructions file")
        else
          .ok (q, db1)

/-- One option of a `QuestionCreate` payload (`app/schemas/quiz.py`). -/
structure OptionCreateData where
  is_correct : Bool
  deriving DecidableEq, Repr

/-- Payload of `QuestionCreate` (`app/schemas/quiz.py`). -/
structure QuestionCreateData where
  question_type : String
  marks : Rat
  options : List OptionCreateData
  deriving DecidableEq, Repr

/-- The option rows built by the `for idx, opt in enumerate(...)` loop of
`QuizRepository.create_question`: labels A, B, C…, `order_number`
starting at 1.  Fresh option ids are derived from the question id. -/
def buildOptions (question_id : String) (opts : List OptionCreateData)
    (idx : Nat) : List QuestionOption :=
  match opts with
  | [] => []
  | o :: rest =>
    { option_id := question_id ++ "#" ++ toString idx,
      question_id := question_id,
      option_label := String.mk [Char.ofNat (65 + idx)],
      is_correct := o.is_correct, order_number := idx + 1 }
      :: buildOptions question_id rest (idx + 1)

/-- `QuizRepository.create_question`: inserts the question row and, for
MCQ/TrueFalse, its option rows. -/
def create_question (db : DB) (quiz_id : String) (qd : QuestionCreateData)
    (order_number : Nat) (new_question_id : String) : Question × DB :=
  let question : Question :=
    { question_id := new_question_id, quiz_id := quiz_id,
      question_type := qd.question_type, marks := qd.marks,
      order_number := order_number }
  let db1 := { db with questions := db.questions ++ [question] }
  if qd.question_type == "MCQ" || qd.question_type == "TrueFalse" then
    (question, { db1 with options := db1.options ++ buildOptions new_question_id qd.options 0 })
  else
    (question, db1)

/-- `QuizService.add_question`: lookup, creator check, published check,
auto-incremented order (`len(quiz.questions) + 1`, the relationship being
all question rows of the quiz), then `create_question`. -/
def add_question (db : DB) (quiz_id : String) (qd : QuestionCreateData)
    (user_id new_question_id : String) :
    Except AppError (String × Nat × DB) :=
  match get_quiz_with_details db quiz_id with
  | none => .error (.notFound "Quiz not found")
  | some quiz =>
    if quiz.created_by_id ≠ user_id then
      .error (.forbidden "Not authorized")
    else if quiz.is_published then
      .error (.badRequest "Cannot add questions to published quiz")
    else
      let order_number :=
        (db.questions.filter (fun q => q.quiz_id == quiz_id)).length + 1
      let res := create_question db quiz_id qd order_number new_question_id
      .ok (new_question_id, order_number, res.2)

/-- Payload of `QuizGradeCreate` (`app/schemas/quiz.py`). -/
structure QuizGradeData where
  final_score : Rat
  feedback_file_id : Option String
  deriving DecidableEq, Repr

/-- `QuizService.grade_quiz`: role check, then per-target-type lookup
with the combined `if not target or target.grade` check raising
`BadRequestException`.  The source ends in placeholder comments
(`# Create grade (shared logic in repo or here)` / `# ... grade
creation`) and returns a success message without inserting any
`QuizGrade` row, so on success the state is returned unchanged. -/
def grade_quiz (db : DB) (gd : QuizGradeData)
    (target_id target_type grader_id grader_role : String) :
    Except AppError DB :=
  if grader_role ≠ "Professor" ∧ grader_role ≠ "AssociateTeacher" then
    .error (.forbidden "Not authorized to grade")
  else if target_type == "digital" then
    match (db.attempts.filter (fun a => a.attempt_id == target_id)).head? with
    | none => .error (.badRequest "Invalid or already graded attempt")
    | some _ =>
      if db.quiz_grades.any (fun g => g.attempt_id == some target_id) then
        .error (.badRequest "Invalid or already graded attempt")
      else
        .ok db
  else if target_type == "file" then
    match (db.quiz_file_submissions.filter (fun s => s.submission_id == target_id)).head? with
    | none => .error (.badRequest "Invalid or already graded submission")
    | some _ =>
      if db.quiz_grades.any (fun g => g.file_submission_id == some target_id) then
        .error (.badRequest "Invalid or already graded submission")
      else
        .ok db
  else
    .error (.badRequest "Invalid target type")

/-- The student-facing view built by `QuizService.get_student_quiz_view`
(`app/schemas/quiz.py`, class `QuizStudentView`; display columns
omitted). -/
structure QuizStudentView where
  quiz_id : String
  has_attempted : Bool
  best_score : Option Rat
  attempts_used : Nat
  can_attempt : Bool
  deriving DecidableEq, Repr

/-- `best_score = max((a.score for a in attempts if a.score),
default=None)`: Python truthiness drops both `None` scores and scores
equal to `0.0` before taking the maximum. -/
def bestScore (attempts : List QuizAttempt) : Option Rat :=
  (attempts.filterMap (fun a =>
    match a.score with
    | some s => if s = 0 then none else some s
    | none => none)).max?

/-- `can_attempt = not quiz.max_attempts or len(attempts) <
quiz.max_attempts` (Python truthiness on the nullable column). -/
def canAttempt (max_attempts : Option Nat) (used : Nat) : Bool :=
  match max_attempts with
  | none => true
  | some m => m == 0 || decide (used < m)

/-- `QuizService.get_student_quiz_view`. -/
def get_student_quiz_view (db : DB) (quiz_id student_id : String) :
    Except AppError QuizStudentView :=
  match get_quiz_by_id db quiz_id with
  | none => .error (.notFound "Quiz not found")
  | some quiz =>
    let attempts := get_student_attempts_for_quiz db quiz_id student_id
    .ok { quiz_id := quiz.quiz_id,
          has_attempted := decide (attempts.length > 0),
          best_score := bestScore attempts,
          attempts_used := attempts.length,
          can_attempt := canAttempt quiz.max_attempts attempts.length }

/-- Payload of `AssignmentCreate` (`app/schemas/assignment.py` is not in
the sources; fields taken from the columns `AssignmentService.create_assignment`
copies onto the `Assignment` row). -/
structure AssignmentCreateData where
  offering_id : String
  deadline : Int
  total_marks : Rat
  reference_file_id : Option String
  deriving DecidableEq, Repr

/-- Modelled from the spec: `AssignmentRepository.get_assignment_by_id`
(`app/repositories/assignment_repository.py` is absent from the sources;
only its callers exist).  The spec's `NotFound` covers "referenced entity
absent or soft-deleted", matching the `is_active` filter the sibling
`QuizRepository.get_quiz_by_id` uses. -/
def get_assignment_by_id (db : DB) (assignment_id : String) : Option Assignment :=
  (db.assignments.filter (fun a => a.assignment_id == assignment_id && a.is_active)).head?

/-- Modelled from the spec: `AssignmentRepository.get_submission`
(the missing store's secondary lookup on `(assessment_id, student_id)`). -/
def get_submission (db : DB) (assignment_id student_id : String) :
    Option AssignmentSubmission :=
  (db.assignment_submissions.filter (fun s =>
    s.assignment_id == assignment_id && s.student_id == student_id)).head?

/-- Modelled from the spec: `AssignmentRepository.get_submission_by_id`
(primary-key lookup used by `grade_assignment`). -/
def get_submission_by_id (db : DB) (submission_id : String) :
    Option AssignmentSubmission :=
  (db.assignment_submissions.filter (fun s => s.submission_id == submission_id)).head?

/-- Modelled from the spec: `AssignmentRepository.submit_assignment`
creates the submission row; the unique constraint
`uq_one_submission_per_student` (`app/models/assignment.py`) rejects a
duplicate `(assignment_id, student_id)` pair at the storage boundary. -/
def repo_submit_assignment (db : DB)
    (assignment_id student_id file_id submission_id : String) (now : Int) :
    Except AppError (AssignmentSubmission × DB) :=
  if (db.assignment_submissions.filter (fun s =>
      s.assignment_id == assignment_id && s.student_id == student_id)).isEmpty then
    let sub : AssignmentSubmission :=
      { submission_id := submission_id, assignment_id := assignment_id,
        student_id := student_id, submitted_file_id := file_id,
        submitted_at := now, is_late := false }
    .ok (sub, { db with assignment_submissions := db.assignment_submissions ++ [sub] })
  else
    .error (.integrityError "uq_one_submission_per_student")

/-- `AssignmentService.create_assignment`: role check, future-deadline
check, reference-file ownership check, then insert. -/
def create_assignment (db : DB) (data : AssignmentCreateData)
    (creator_id creator_role new_id : String) (now : Int) :
    Except AppError (Assignment × DB) :=
  if creator_role ≠ "Professor" ∧ creator_role ≠ "AssociateTeacher" then
    .error (.forbidden "Only teachers can create assignments")
  else if data.deadline ≤ now then
    .error (.badRequest "Deadline must be in the future")
  else
    let fileOk : Except AppError Unit :=
      match data.reference_file_id with
      | none => .ok ()
      | some fid =>
        match get_file_by_id db fid with
        | none => .error (.forbidden "Invalid reference file")
        | some f =>
          if f.uploaded_by ≠ creator_id then
            .error (.forbidden "Invalid reference file")
          else .ok ()
    match fileOk with
    | .error e => .error e
    | .ok _ =>
      let a : Assignment :=
        { assignment_id := new_id, offering_id := data.offering_id,
          created_by_id := creator_id, created_by_role := creator_role,
          reference_file_id := data.reference_file_id,
          deadline := data.deadline, total_marks := data.total_marks,
          is_active := true }
      .ok (a, { db with assignments := db.assignments ++ [a] })

/-- `AssignmentService.submit_assignment`: existence, deadline,
duplicate and file-ownership checks, repository insert, then the
in-session `submission_record.is_late = submitted_at >
assignment.deadline` update. -/
def submit_assignment (db : DB) (assignment_id file_id student_id submission_id : String)
    (now : Int) : Except AppError DB :=
  match get_assignment_by_id db assignment_id with
  | none => .error (.notFound "Assignment not found")
  | some assignment =>
    if assignment.deadline < now then
      .error (.badRequest "Assignment deadline has passed")
    else
      match get_submission db assignment_id student_id with
      | some _ => .error (.conflict "You have already submitted this assignment")
      | none =>
        match get_file_by_id db file_id with
        | none => .error (.forbidden "Invalid file submitted")
        | some f =>
          if f.uploaded_by ≠ student_id then
            .error (.forbidden "Invalid file submitted")
          else
            match repo_submit_assignment db assignment_id student_id file_id submission_id now with
            | .error e => .error e
            | .ok (sub, db1) =>
              .ok { db1 with assignment_submissions :=
                db1.assignment_submissions.map (fun s =>
                  if s == sub then
                    { s with is_late := decide (assignment.deadline < s.submitted_at) }
                  else s) }

/-- Payload of `AssignmentGradeCreate`. -/
structure AssignmentGradeData where
  final_score : Rat
  feedback_file_id : Option String
  deriving DecidableEq, Repr

/-- Modelled from the spec: `AssignmentRepository.create_grade` inserts
the terminal `AssignmentGrade` row (the uniqueness of `submission_id`
was just checked by the caller; the column is also declared `unique`). -/
def repo_create_grade (db : DB) (submission_id : String)
    (gd : AssignmentGradeData) (grader_id grader_role new_grade_id : String) :
    AssignmentGrade × DB :=
  let g : AssignmentGrade :=
    { grade_id := new_grade_id, submission_id := submission_id,
      graded_by_id := grader_id, graded_by_role := grader_role,
      final_score := gd.final_score }
  (g, { db with assignment_grades := db.assignment_grades ++ [g] })

/-- `AssignmentService.grade_assignment`: role check, submission lookup,
already-graded check (`submission.grade` relationship → `Conflict`),
feedback-file ownership check, then `create_grade`. -/
def grade_assignment (db : DB) (submission_id : String)
    (gd : AssignmentGradeData) (grader_id grader_role new_grade_id : String) :
    Except AppError (AssignmentGrade × DB) :=
  if grader_role ≠ "Professor" ∧ grader_role ≠ "AssociateTeacher" then
    .error (.forbidden "Only teachers can grade")
  else
    match get_submission_by_id db submission_id with
    | none => .error (.notFound "Submission not found")
    | some _ =>
      if db.assignment_grades.any (fun g => g.submission_id == submission_id) then
        .error (.conflict "This assignment has already been graded")
      else
        match gd.feedback_file_id with
        | none => .ok (repo_create_grade db submission_id gd grader_id grader_role new_grade_id)
        | some fid =>
          match get_file_by_id db fid with
          | none => .error (.forbidden "Invalid feedback file")
          | some f =>
            if f.uploaded_by ≠ grader_id then
              .error (.forbidden "Invalid feedback file")
            else
              .ok (repo_create_grade db submission_id gd grader_id grader_role new_grade_id)

/-- The score column stored for an attempt, read back from the state. -/
def scoreOf (db : DB) (attempt_id : String) : Option Rat :=
  match (db.attempts.filter (fun a => a.attempt_id == attempt_id)).head? with
  | some a => a.score
  | none => none

/-- The marks `QuizRepository.submit_attempt` awards for one submitted
answer, extracted as a pure function of the answer, the question table
and the full option table: full `question.marks` iff the question exists,
is MCQ/TrueFalse, and the submitted `selected_option_id` resolves to an
option row (of any question, anywhere) whose `is_correct` flag is set;
`0` in every other case. -/
def answerAward (db : DB) (ans : StudentAnswer) : Rat :=
  match get_question_by_id db ans.question_id with
  | none => 0
  | some q =>
    if q.question_type == "MCQ" || q.question_type == "TrueFalse" then
      match lookupOption db ans.selected_option_id with
      | some o => if o.is_correct then q.marks else 0
      | none => 0
    else 0

/-- The `(awarded_marks, is_correct)` pair `QuizRepository.submit_attempt`
records for one submitted answer (`none` when the answer is skipped
because its question id matches no row): `(some marks, some true)` for an
objective question whose submitted option resolves, globally, to a row
flagged correct; `(some 0, none)` for every other objective answer
(including wrong ones, where `is_correct` stays NULL rather than false)
and for Paragraph answers (whose `awarded_marks` is stored as `0.0`,
not NULL). -/
def answerVerdict (db : DB) (ans : StudentAnswer) :
    Option (Option Rat × Option Bool) :=
  match get_question_by_id db ans.question_id with
  | none => none
  | some q =>
    if q.question_type == "MCQ" || q.question_type == "TrueFalse" then
      match lookupOption db ans.selected_option_id with
      | some o =>
        if o.is_correct then some (some q.marks, some true)
        else some (some 0, none)
      | none => some (some 0, none)
    else some (some 0, none)

/-- The option flagged correct for a given question (the spec's "the
option with `is_correct=true` for that question"). -/
def correctOptionOf (db : DB) (question_id : String) : Option QuestionOption :=
  (db.options.filter (fun o => o.question_id == question_id && o.is_correct)).head?

/-- The auto-score exactly as the claim states it: the sum of
`question.marks` over the questions **of the given quiz** whose submitted
answer selects the option flagged correct **for that same question**;
Paragraph and unanswered questions contribute 0.  This definition follows
the spec's words and is compared against the embedded code. -/
def specAutoScore (db : DB) (quiz_id : String) (answers : List StudentAnswer) : Rat :=
  ((db.questions.filter (fun q => q.quiz_id == quiz_id)).map (fun q =>
    match (answers.filter (fun a => a.question_id == q.question_id)).head?,
          correctOptionOf db q.question_id with
    | some a, some o =>
      if a.selected_option_id = some o.option_id ∧
         (q.question_type = "MCQ" ∨ q.question_type = "TrueFalse") then
        q.marks
      else 0
    | _, _ => 0)).sum

/-- Whether a workflow result is a `Conflict` failure. -/
def isConflict {α : Type} : Except AppError α → Bool
  | .error (.conflict _) => true
  | _ => false

/-- Run `start_quiz_attempt` once per id in the list, threading the state
exactly as consecutive requests would: a failed call leaves the state
unchanged (the transaction rolls back).  Returns the final state and, per
call, `none` for success or the raised error. -/
def startMany (db : DB) (quiz_id student_id : String) (now : Int) :
    List String → DB × List (Option AppError)
  | [] => (db, [])
  | aid :: rest =>
    match start_quiz_attempt db quiz_id student_id aid now with
    | .ok db1 =>
      let acc := startMany db1 quiz_id student_id now rest
      (acc.1, none :: acc.2)
    | .error e =>
      let acc := startMany db quiz_id student_id now rest
      (acc.1, some e :: acc.2)

/-- How many submissions one (assignment, student) pair has. -/
def submissionCount (db : DB) (assignment_id student_id : String) : Nat :=
  (db.assignment_submissions.filter (fun s =>
    s.assignment_id == assignment_id && s.student_id == student_id)).length

/-! ### General helper lemmas -/

theorem foldrMax_init (l : List Nat) (i : Nat) :
    l.foldr Nat.max i = Nat.max (l.foldr Nat.max 0) i := by
  induction l with
  | nil => simp
  | cons a l ih => simp [List.foldr_cons, ih, Nat.max_assoc]

theorem foldrMax_range (k : Nat) : (List.range' 1 k).foldr Nat.max 0 = k := by
  induction k with
  | zero => rfl
  | succ n ih =>
    rw [List.range'_1_concat, List.foldr_append, List.foldr_cons, List.foldr_nil,
      foldrMax_init, ih]
    have h1 : Nat.max (1 + n) 0 = 1 + n := Nat.max_eq_left (Nat.zero_le _)
    have h2 : Nat.max n (1 + n) = 1 + n := Nat.max_eq_right (by omega)
    rw [h1, h2]
    omega

/-- `first()` of an attempt-id filter commutes with a row update that
keeps `attempt_id`. -/
theorem filter_head_map_attempt (l : List QuizAttempt) (aid : String)
    (f : QuizAttempt → QuizAttempt)
    (hpres : ∀ a, (f a).attempt_id = a.attempt_id) :
    ((l.map f).filter (fun a => a.attempt_id == aid)).head? =
      ((l.filter (fun a => a.attempt_id == aid)).head?).map f := by
  induction l with
  | nil => rfl
  | cons a l ih =>
    by_cases h : a.attempt_id = aid
    · simp [List.filter_cons, hpres, h]
    · simp [List.filter_cons, hpres, h, ih]

/-! ### C10: zero scores are excluded from `best_score` -/

/-- C10.  In `get_student_quiz_view`, an attempt whose score is 0 is
excluded from the best-score computation (Python truthiness of
`if a.score`): when every attempt of the student has score `None` or `0`,
the returned `best_score` is `None`, while the same attempts still count
in `attempts_used` and `has_attempted`. -/
theorem C10_zero_score_excluded (db : DB) (qid sid : String) (quiz : Quiz)
    (hq : get_quiz_by_id db qid = some quiz)
    (hz : ∀ a ∈ get_student_attempts_for_quiz db qid sid,
      a.score = none ∨ a.score = some 0) :
    get_student_quiz_view db qid sid =
      .ok { quiz_id := quiz.quiz_id,
            has_attempted :=
              decide ((get_student_attempts_for_quiz db qid sid).length > 0),
            best_score := none,
            attempts_used := (get_student_attempts_for_quiz db qid sid).length,
            can_attempt := canAttempt quiz.max_attempts
              (get_student_attempts_for_quiz db qid sid).length } := by
  have hb : bestScore (get_student_attempts_for_quiz db qid sid) = none := by
    unfold bestScore
    rw [List.filterMap_eq_nil_iff.mpr, List.max?_nil]
    intro a ha
    rcases hz a ha with h | h <;> simp [h]
  unfold get_student_quiz_view
  rw [hq]
  simp only [hb]

/-- Example state for C10: one digital quiz and two attempts of student
`s`, one completed with score 0 and one still in progress (score NULL). -/
def exDB10 : DB :=
  { DB.empty with
    quizzes := [{ quiz_id := "Z", offering_id := "o", created_by_id := "t",
                  created_by_role := "Professor", quiz_type := "Digital",
                  deadline := 100, max_attempts := some 3,
                  is_published := true, is_active := true }],
    attempts := [⟨"A1", "Z", "s", 1, 0, some 1, some 0, true⟩,
                 ⟨"A2", "Z", "s", 2, 0, none, none, false⟩] }

/-- Witness for C10 at a concrete state: both attempts score NULL-or-0,
so `best_score` is `None` while `attempts_used` still counts them. -/
theorem C10_zero_score_excluded_witness :
    get_student_quiz_view exDB10 "Z" "s" =
      .ok { quiz_id := "Z", has_attempted := true, best_score := none,
            attempts_used := 2, can_attempt := true } :=
  C10_zero_score_excluded exDB10 "Z" "s"
    { quiz_id := "Z", offering_id := "o", created_by_id := "t",
      created_by_role := "Professor", quiz_type := "Digital",
      deadline := 100, max_attempts := some 3,
      is_published := true, is_active := true }
    rfl (by decide)

/-! ### C8: a published quiz rejects structural mutation -/

/-- C8.  `QuizService.add_question` on a published quiz: when the caller
is the quiz's creator, the call fails `BadRequest` (and, the call failing,
the transaction leaves the question set unchanged); conversely any
successful `add_question` happened on an unpublished quiz. -/
theorem C8_published_quiz_rejects_add_question (db : DB) (qid : String)
    (qd : QuestionCreateData) (uid nqid : String) :
    (∀ quiz, get_quiz_with_details db qid = some quiz →
      uid = quiz.created_by_id → quiz.is_published = true →
      add_question db qid qd uid nqid =
        .error (.badRequest "Cannot add questions to published quiz")) ∧
    (∀ r, add_question db qid qd uid nqid = .ok r →
      ∃ quiz, get_quiz_with_details db qid = some quiz ∧
        quiz.is_published = false) := by
  constructor
  · intro quiz hq huid hpub
    unfold add_question
    rw [hq]
    simp [← huid, hpub]
  · intro r hr
    unfold add_question at hr
    cases hq : get_quiz_with_details db qid with
    | none => rw [hq] at hr; simp at hr
    | some quiz =>
      rw [hq] at hr
      by_cases h1 : quiz.created_by_id ≠ uid
      · simp [h1] at hr
      · by_cases h2 : quiz.is_published
        · simp [h1, h2] at hr
        · exact ⟨quiz, rfl, by simpa using h2⟩

/-- Example state for C8: a published digital quiz created by `t`. -/
def exDB8 : DB :=
  { DB.empty with
    quizzes := [{ quiz_id := "Z", offering_id := "o", created_by_id := "t",
                  created_by_role := "Professor", quiz_type := "Digital",
                  deadline := 100, max_attempts := some 1,
                  is_published := true, is_active := true }] }

/-- Witness for C8: the creator tries to add an MCQ to the published
quiz and gets `BadRequest`. -/
theorem C8_published_quiz_rejects_add_question_witness :
    add_question exDB8 "Z" ⟨"MCQ", 5, [⟨true⟩, ⟨false⟩]⟩ "t" "nq" =
      .error (.badRequest "Cannot add questions to published quiz") :=
  (C8_published_quiz_rejects_add_question exDB8 "Z"
    ⟨"MCQ", 5, [⟨true⟩, ⟨false⟩]⟩ "t" "nq").1
    { quiz_id := "Z", offering_id := "o", created_by_id := "t",
      created_by_role := "Professor", quiz_type := "Digital",
      deadline := 100, max_attempts := some 1,
      is_published := true, is_active := true }
    rfl rfl rfl

/-- The post-flush `is_late` update touches only the freshly inserted
row: mapping an update guarded by `s == x` over a list not containing
`x` is the identity. -/
theorem map_update_not_mem {α : Type} [DecidableEq α] (l : List α) (x : α)
    (g : α → α) (hx : x ∉ l) :
    l.map (fun s => if s = x then g s else s) = l := by
  induction l with
  | nil => rfl
  | cons a l ih =>
    have hne : ¬a = x := fun h => hx (h ▸ List.mem_cons_self a l)
    have hx' : x ∉ l := fun h => hx (List.mem_cons_of_mem a h)
    rw [List.map_cons, if_neg hne, ih hx']

/-! ### C7: past-deadline file submissions are hard-blocked -/

/-- C7.  For both file-submission paths (assignments and file-upload
quizzes), a call made after the deadline fails `BadRequest` and creates
nothing, and every successfully created submission was validated at an
instant `now ≤ deadline`, recorded as its `submitted_at` with
`is_late = false`. -/
theorem C7_late_submission_blocked (db : DB) (now : Int) :
    (∀ aid fid sid subid a, get_assignment_by_id db aid = some a →
      ((a.deadline < now →
        submit_assignment db aid fid sid subid now =
          .error (.badRequest "Assignment deadline has passed")) ∧
       (∀ db1, submit_assignment db aid fid sid subid now = .ok db1 →
        now ≤ a.deadline ∧ ∃ sub,
          db1.assignment_submissions = db.assignment_submissions ++ [sub] ∧
          sub.submitted_at = now ∧ sub.is_late = false))) ∧
    (∀ qid fid sid subid quiz, get_quiz_by_id db qid = some quiz →
      quiz.quiz_type = "FileUpload" →
      ((quiz.deadline < now →
        submit_file_quiz db qid fid sid subid now =
          .error (.badRequest "Deadline passed")) ∧
       (∀ db1, submit_file_quiz db qid fid sid subid now = .ok db1 →
        now ≤ quiz.deadline ∧ ∃ sub,
          db1.quiz_file_submissions = db.quiz_file_submissions ++ [sub] ∧
          sub.submitted_at = now ∧ sub.is_late = false))) := by
  constructor
  · intro aid fid sid subid a ha
    constructor
    · intro hlate
      unfold submit_assignment
      rw [ha]
      simp [hlate]
    · intro db1 hok
      unfold submit_assignment at hok
      rw [ha] at hok
      by_cases hlate : a.deadline < now
      · simp [hlate] at hok
      · refine ⟨by omega, ?_⟩
        simp only [if_neg hlate] at hok
        cases hsub : get_submission db aid sid with
        | some s => rw [hsub] at hok; simp at hok
        | none =>
          rw [hsub] at hok
          cases hf : get_file_by_id db fid with
          | none => rw [hf] at hok; simp at hok
          | some f =>
            rw [hf] at hok
            by_cases hown : f.uploaded_by ≠ sid
            · simp [hown] at hok
            · simp only [if_neg hown] at hok
              unfold repo_submit_assignment at hok
              by_cases hemp : (db.assignment_submissions.filter (fun s =>
                  s.assignment_id == aid && s.student_id == sid)).isEmpty
              · simp only [if_pos hemp] at hok
                have hnotmem :
                    (⟨subid, aid, sid, fid, now, false⟩ : AssignmentSubmission) ∉
                      db.assignment_submissions := by
                  intro hmem
                  have hnil := List.isEmpty_iff.mp hemp
                  have := List.filter_eq_nil_iff.mp hnil _ hmem
                  simp at this
                simp only [Except.ok.injEq] at hok
                subst hok
                refine ⟨{ submission_id := subid, assignment_id := aid,
                          student_id := sid, submitted_file_id := fid,
                          submitted_at := now,
                          is_late := decide (a.deadline < now) }, ?_, rfl, ?_⟩
                · simp [List.map_append, map_update_not_mem _ _ _ hnotmem]
                · simp [hlate]
              · simp only [if_neg hemp] at hok
                simp at hok
  · intro qid fid sid subid quiz hq htype
    constructor
    · intro hlate
      unfold submit_file_quiz
      rw [hq]
      simp [htype, hlate]
    · intro db1 hok
      unfold submit_file_quiz at hok
      rw [hq] at hok
      by_cases htype' : quiz.quiz_type ≠ "FileUpload"
      · exact absurd htype htype'
      · simp only [if_neg htype'] at hok
        by_cases hlate : quiz.deadline < now
        · simp [hlate] at hok
        · refine ⟨by omega, ?_⟩
          simp only [if_neg hlate] at hok
          cases hf : get_file_by_id db fid with
          | none => rw [hf] at hok; simp at hok
          | some f =>
            rw [hf] at hok
            by_cases hown : f.uploaded_by ≠ sid
            · simp [hown] at hok
            · simp only [if_neg hown] at hok
              unfold repo_submit_file_quiz at hok
              by_cases hemp : (db.quiz_file_submissions.filter (fun s =>
                  s.quiz_id == qid && s.student_id == sid)).isEmpty
              · simp only [if_pos hemp] at hok
                have hnotmem :
                    (⟨subid, qid, sid, fid, now, false⟩ : QuizFileSubmission) ∉
                      db.quiz_file_submissions := by
                  intro hmem
                  have hnil := List.isEmpty_iff.mp hemp
                  have := List.filter_eq_nil_iff.mp hnil _ hmem
                  simp at this
                simp only [Except.ok.injEq] at hok
                subst hok
                refine ⟨{ submission_id := subid, quiz_id := qid,
                          student_id := sid, submitted_file_id := fid,
                          submitted_at := now,
                          is_late := decide (quiz.deadline < now) }, ?_, rfl, ?_⟩
                · simp [List.map_append, map_update_not_mem _ _ _ hnotmem]
                · simp [hlate]
              · simp only [if_neg hemp] at hok
                simp at hok

/-- Example state for C7: one active assignment with deadline 10 and no
submissions. -/
def exDB7 : DB :=
  { DB.empty with
    assignments := [{ assignment_id := "A", offering_id := "o",
                      created_by_id := "t", created_by_role := "Professor",
                      reference_file_id := none, deadline := 10,
                      total_marks := 100, is_active := true }] }

/-- Witness for C7: submitting at instant 20 (after the deadline 10)
fails `BadRequest`. -/
theorem C7_late_submission_blocked_witness :
    submit_assignment exDB7 "A" "f" "s" "x" 20 =
      .error (.badRequest "Assignment deadline has passed") :=
  ((C7_late_submission_blocked exDB7 20).1 "A" "f" "s" "x"
    { assignment_id := "A", offering_id := "o",
      created_by_id := "t", created_by_role := "Professor",
      reference_file_id := none, deadline := 10,
      total_marks := 100, is_active := true }
    rfl).1 (by decide)

/-! ### C4: attempt limiting and attempt numbering -/

/-- Successful step: with the invariant "stored numbers are `1..k`" and
`k < N` remaining capacity, `start_quiz_attempt` inserts attempt number
`k + 1`. -/
theorem start_step_ok (db : DB) (qid sid aid : String) (now : Int)
    (quiz : Quiz) (N k : Nat)
    (hq : get_quiz_by_id db qid = some quiz)
    (hpub : quiz.is_published = true)
    (hdl : ¬quiz.deadline < now)
    (hmax : quiz.max_attempts = some N)
    (hk : attemptNumbers db qid sid = List.range' 1 k)
    (hkN : k < N) :
    start_quiz_attempt db qid sid aid now =
      .ok { db with attempts := db.attempts ++
        [⟨aid, qid, sid, k + 1, now, none, none, false⟩] } := by
  have hlen : (get_student_attempts_for_quiz db qid sid).length = k := by
    have h := congrArg List.length hk
    simpa [attemptNumbers] using h
  have hmaxnum : maxAttemptNumber db qid sid = k := by
    unfold maxAttemptNumber
    rw [hk, foldrMax_range]
  have hguard : ¬(N ≠ 0 ∧ (get_student_attempts_for_quiz db qid sid).length ≥ N) := by
    rw [hlen]
    omega
  unfold start_quiz_attempt
  rw [hq]
  simp only [hpub, Bool.not_true, Bool.false_eq_true, if_false, if_neg hdl,
    hmax, if_neg hguard]
  unfold start_attempt
  rw [hmaxnum]

/-- Failing step: with numbers `1..k` stored and `N ≤ k` (`N ≠ 0`),
`start_quiz_attempt` raises `Conflict`. -/
theorem start_step_conflict (db : DB) (qid sid aid : String) (now : Int)
    (quiz : Quiz) (N k : Nat)
    (hq : get_quiz_by_id db qid = some quiz)
    (hpub : quiz.is_published = true)
    (hdl : ¬quiz.deadline < now)
    (hmax : quiz.max_attempts = some N)
    (hk : attemptNumbers db qid sid = List.range' 1 k)
    (hkN : N ≤ k) (hN : N ≠ 0) :
    start_quiz_attempt db qid sid aid now =
      .error (.conflict s!"Maximum {N} attempts reached") := by
  have hlen : (get_student_attempts_for_quiz db qid sid).length = k := by
    have h := congrArg List.length hk
    simpa [attemptNumbers] using h
  have hguard : N ≠ 0 ∧ (get_student_attempts_for_quiz db qid sid).length ≥ N := by
    rw [hlen]
    omega
  unfold start_quiz_attempt
  rw [hq]
  simp only [hpub, Bool.not_true, Bool.false_eq_true, if_false, if_neg hdl,
    hmax, if_pos hguard]

theorem map_guard_ge (N : Nat) (err : AppError) :
    ∀ (len s : Nat), N ≤ s →
      (List.range' s len).map
        (fun j => if j < N then (none : Option AppError) else some err) =
        List.replicate len (some err) := by
  intro len
  induction len with
  | zero => intro s _; rfl
  | succ n ih =>
    intro s hs
    rw [List.range'_succ, List.map_cons, if_neg (by omega), ih (s + 1) (by omega),
      List.replicate_succ]

theorem map_guard_lt (N : Nat) (err : AppError) :
    ∀ (len s : Nat), s + len ≤ N →
      (List.range' s len).map
        (fun j => if j < N then (none : Option AppError) else some err) =
        List.replicate len none := by
  intro len
  induction len with
  | zero => intro s _; rfl
  | succ n ih =>
    intro s hs
    rw [List.range'_succ, List.map_cons, if_pos (by omega), ih (s + 1) (by omega),
      List.replicate_succ]

/-- Trace invariant for consecutive `start_quiz_attempt` calls: starting
from numbers `1..k`, call number `j` (0-based, global position `k + j`)
succeeds iff `k + j < N`, and the stored numbers end at `min N (k + #calls)`. -/
theorem startMany_trace (qid sid : String) (now : Int) (quiz : Quiz) (N : Nat)
    (hpub : quiz.is_published = true) (hdl : ¬quiz.deadline < now)
    (hmax : quiz.max_attempts = some N) (hN : 1 ≤ N) :
    ∀ (ids : List String) (db : DB) (k : Nat),
      get_quiz_by_id db qid = some quiz →
      attemptNumbers db qid sid = List.range' 1 k →
      k ≤ N →
      (startMany db qid sid now ids).2 =
        (List.range' k ids.length).map
          (fun j => if j < N then (none : Option AppError)
            else some (.conflict s!"Maximum {N} attempts reached")) ∧
      attemptNumbers (startMany db qid sid now ids).1 qid sid =
        List.range' 1 (Nat.min N (k + ids.length)) := by
  intro ids
  induction ids with
  | nil =>
    intro db k hq hk hkN
    refine ⟨rfl, ?_⟩
    simp only [startMany, List.length_nil, Nat.add_zero, Nat.min_eq_right hkN]
    exact hk
  | cons aid rest ih =>
    intro db k hq hk hkN
    by_cases hklt : k < N
    · have hstep := start_step_ok db qid sid aid now quiz N k hq hpub hdl hmax hk hklt
      have hq1 : get_quiz_by_id
          { db with attempts := db.attempts ++
            [⟨aid, qid, sid, k + 1, now, none, none, false⟩] } qid = some quiz := hq
      have hk1 : attemptNumbers
          { db with attempts := db.attempts ++
            [⟨aid, qid, sid, k + 1, now, none, none, false⟩] } qid sid =
          List.range' 1 (k + 1) := by
        have hbase := hk
        unfold attemptNumbers get_student_attempts_for_quiz at hbase ⊢
        simp only [List.filter_append, List.map_append, hbase]
        simp [List.range'_1_concat]
        omega
      obtain ⟨ht, hn⟩ := ih _ (k + 1) hq1 hk1 (by omega)
      refine ⟨?_, ?_⟩
      · simp only [startMany, hstep, List.length_cons]
        rw [List.range'_succ, List.map_cons, if_pos hklt, ht]
      · simp only [startMany, hstep, List.length_cons]
        have harith : k + 1 + rest.length = k + (rest.length + 1) := by omega
        rw [hn, harith]
    · have hke : N ≤ k := by omega
      have hstep := start_step_conflict db qid sid aid now quiz N k hq hpub hdl
        hmax hk hke (by omega)
      obtain ⟨ht, hn⟩ := ih db k hq hk hkN
      refine ⟨?_, ?_⟩
      · simp only [startMany, hstep, List.length_cons]
        rw [List.range'_succ, List.map_cons, if_neg hklt, ht,
          map_guard_ge N _ rest.length k hke,
          map_guard_ge N _ rest.length (k + 1) (by omega)]
      · simp only [startMany, hstep, List.length_cons]
        rw [hn]
        have h1 : Nat.min N (k + rest.length) = N := Nat.min_eq_left (by omega)
        have h2 : Nat.min N (k + (rest.length + 1)) = N := Nat.min_eq_left (by omega)
        rw [h1, h2]

/-- C4.  For a published quiz with `max_attempts = N ≥ 1` and deadline
not passed, a student with no prior attempts who issues `N + 1`
consecutive `start_quiz_attempt` calls gets exactly `N` successes
followed by one `Conflict`, and the attempt numbers stored at the end are
exactly `1..N`, in order, with no gaps or repeats (failed calls leave no
row, and numbers are never reused because every insert takes
`max + 1`). -/
theorem C4_attempt_numbering (db : DB) (qid sid : String) (now : Int)
    (quiz : Quiz) (N : Nat) (ids : List String)
    (hq : get_quiz_by_id db qid = some quiz)
    (hpub : quiz.is_published = true)
    (hdl : ¬quiz.deadline < now)
    (hmax : quiz.max_attempts = some N)
    (hN : 1 ≤ N)
    (h0 : attemptNumbers db qid sid = [])
    (hlen : ids.length = N + 1) :
    (startMany db qid sid now ids).2 =
      List.replicate N none ++
        [some (AppError.conflict s!"Maximum {N} attempts reached")] ∧
    attemptNumbers (startMany db qid sid now ids).1 qid sid =
      List.range' 1 N := by
  have h0' : attemptNumbers db qid sid = List.range' 1 0 := by simpa using h0
  obtain ⟨ht, hn⟩ := startMany_trace qid sid now quiz N hpub hdl hmax hN ids db 0
    hq h0' (by omega)
  constructor
  · rw [ht, hlen, List.range'_1_concat, List.map_append,
      map_guard_lt N _ N 0 (by omega)]
    simp
  · rw [hn, hlen]
    have hmin : Nat.min N (0 + (N + 1)) = N := Nat.min_eq_left (by omega)
    rw [hmin]

/-- Example state for C4: a published digital quiz with
`max_attempts = 1` and no attempts yet. -/
def exDB4 : DB :=
  { DB.empty with
    quizzes := [{ quiz_id := "Z", offering_id := "o", created_by_id := "t",
                  created_by_role := "Professor", quiz_type := "Digital",
                  deadline := 100, max_attempts := some 1,
                  is_published := true, is_active := true }] }

/-- Witness for C4 with `N = 1`: the first start succeeds, the second
fails `Conflict`, and the stored numbers are `[1]`. -/
theorem C4_attempt_numbering_witness :
    (startMany exDB4 "Z" "s" 0 ["a1", "a2"]).2 =
      List.replicate 1 none ++
        [some (AppError.conflict "Maximum 1 attempts reached")] ∧
    attemptNumbers (startMany exDB4 "Z" "s" 0 ["a1", "a2"]).1 "Z" "s" =
      List.range' 1 1 :=
  C4_attempt_numbering exDB4 "Z" "s" 0
    { quiz_id := "Z", offering_id := "o", created_by_id := "t",
      created_by_role := "Professor", quiz_type := "Digital",
      deadline := 100, max_attempts := some 1,
      is_published := true, is_active := true }
    1 ["a1", "a2"] rfl rfl (by decide) rfl (by decide) rfl rfl

/-! ### C1 and C2: auto-scoring of a submitted digital quiz -/

/-- The accumulated `total_score` of the grading loop is the sum of the
per-answer award, answer by answer. -/
theorem gradeLoop_total (db : DB) (aid : String) :
    ∀ answers : List StudentAnswer,
      (gradeLoop db aid answers).2 = (answers.map (answerAward db)).sum := by
  intro answers
  induction answers with
  | nil => simp [gradeLoop]
  | cons a rest ih =>
    simp only [gradeLoop, List.map_cons, List.sum_cons]
    cases hq : get_question_by_id db a.question_id with
    | none => simp [answerAward, hq, ih]
    | some q =>
      cases ho : lookupOption db a.selected_option_id with
      | none =>
        cases hobj : (q.question_type == "MCQ" || q.question_type == "TrueFalse") <;>
          simp [answerAward, hq, ho, hobj, ih]
      | some o =>
        cases hobj : (q.question_type == "MCQ" || q.question_type == "TrueFalse") <;>
          cases hoc : o.is_correct <;>
            simp [answerAward, hq, ho, hobj, hoc, ih]

/-- The `QuizAnswer` rows inserted by the grading loop, answer by answer:
one row per answer whose question exists, with the
`(awarded_marks, is_correct)` verdict of `answerVerdict`. -/
theorem gradeLoop_rows (db : DB) (aid : String) :
    ∀ answers : List StudentAnswer,
      (gradeLoop db aid answers).1 = answers.filterMap (fun a =>
        (answerVerdict db a).map (fun v =>
          { attempt_id := aid, question_id := a.question_id,
            selected_option_id := a.selected_option_id,
            answer_text := a.answer_text,
            awarded_marks := v.1, is_correct := v.2 })) := by
  intro answers
  induction answers with
  | nil => simp [gradeLoop]
  | cons a rest ih =>
    simp only [gradeLoop, List.filterMap_cons]
    cases hq : get_question_by_id db a.question_id with
    | none => simp [answerVerdict, hq, ih]
    | some q =>
      cases ho : lookupOption db a.selected_option_id with
      | none =>
        cases hobj : (q.question_type == "MCQ" || q.question_type == "TrueFalse") <;>
          simp [answerVerdict, hq, ho, hobj, ih]
      | some o =>
        cases hobj : (q.question_type == "MCQ" || q.question_type == "TrueFalse") <;>
          cases hoc : o.is_correct <;>
            simp [answerVerdict, hq, ho, hobj, hoc, ih]

/-- Inversion of a successful `submit_digital_quiz`: the resulting state
is the input state with the attempt completed (score = loop total) and
the graded rows appended. -/
theorem submit_ok_inversion (db : DB) (aid : String)
    (answers : List StudentAnswer) (sid : String) (now : Int) (db1 : DB)
    (h : submit_digital_quiz db aid answers sid now = .ok db1) :
    db1 = { db with
      attempts := db.attempts.map (fun a =>
        if a.attempt_id == aid then
          { a with submitted_at := some now, is_completed := true,
                   score := some (gradeLoop db aid answers).2 }
        else a),
      quiz_answers := db.quiz_answers ++ (gradeLoop db aid answers).1 } := by
  unfold submit_digital_quiz submit_attempt at h
  cases hb : (db.attempts.filter (fun a => a.attempt_id == aid)).head? with
  | none => rw [hb] at h; simp at h
  | some att =>
    rw [hb] at h
    by_cases h1 : att.student_id ≠ sid
    · simp [h1] at h
    · simp only [if_neg h1] at h
      by_cases h2 : att.is_completed
      · simp [h2] at h
      · simp only [h2, Bool.false_eq_true, if_false] at h
        by_cases h3 : (answerKeys (db.quiz_answers ++ (gradeLoop db aid answers).1)).Nodup
        · simp only [if_pos h3, Except.ok.injEq] at h
          exact h.symm
        · simp [h3] at h

/-- C1 (amended).  After a successful `submit_digital_quiz`, the stored
score equals the sum, over the submitted answers, of `question.marks`
for exactly those answers whose question exists and is objective
(MCQ/TrueFalse) and whose `selected_option_id` resolves to an option row
flagged correct — looked up in the whole option table, without checking
that the option belongs to the answered question or that the question
belongs to the attempt's quiz.  Paragraph answers and unanswered
questions contribute 0. -/
theorem C1_autoscore_sum (db : DB) (aid : String)
    (answers : List StudentAnswer) (sid : String) (now : Int) (db1 : DB)
    (h : submit_digital_quiz db aid answers sid now = .ok db1) :
    scoreOf db1 aid = some ((answers.map (answerAward db)).sum) := by
  cases hb : (db.attempts.filter (fun a => a.attempt_id == aid)).head? with
  | none =>
    unfold submit_digital_quiz at h
    rw [hb] at h
    simp at h
  | some att =>
    have hdb := submit_ok_inversion db aid answers sid now db1 h
    subst hdb
    have hatt : (att.attempt_id == aid) = true := by
      obtain ⟨ys, hys⟩ := List.head?_eq_some_iff.mp hb
      have hmem : att ∈ db.attempts.filter (fun a => a.attempt_id == aid) :=
        hys ▸ List.mem_cons_self att ys
      exact (List.mem_filter.mp hmem).2
    unfold scoreOf
    rw [filter_head_map_attempt _ aid _ (fun a => by split <;> rfl), hb]
    have hattp : att.attempt_id = aid := by simpa using hatt
    simp [hattp, gradeLoop_total]

/-- C2 (amended).  A successful `submit_digital_quiz` appends exactly one
`QuizAnswer` row per answer whose question id resolves, and the recorded
`(awarded_marks, is_correct)` pair is the `answerVerdict` of the question,
the submitted answer and the global option table: `(marks, true)` when
the selected option resolves to a row flagged correct anywhere,
`(0, NULL)` for every other objective answer (wrong answers are NULL, not
false), and `(0, NULL)` for Paragraph answers (0.0 is stored, not
NULL). -/
theorem C2_recorded_verdicts (db : DB) (aid : String)
    (answers : List StudentAnswer) (sid : String) (now : Int) (db1 : DB)
    (h : submit_digital_quiz db aid answers sid now = .ok db1) :
    db1.quiz_answers = db.quiz_answers ++ answers.filterMap (fun a =>
      (answerVerdict db a).map (fun v =>
        { attempt_id := aid, question_id := a.question_id,
          selected_option_id := a.selected_option_id,
          answer_text := a.answer_text,
          awarded_marks := v.1, is_correct := v.2 })) := by
  have hdb := submit_ok_inversion db aid answers sid now db1 h
  subst hdb
  simp only [gradeLoop_rows]

/-- Example state for the C1 witness: one digital quiz with one MCQ
question (marks 5, correct option `o1`), and one in-progress attempt of
student `s`. -/
def exDB1 : DB :=
  { DB.empty with
    quizzes := [{ quiz_id := "Z", offering_id := "o", created_by_id := "t",
                  created_by_role := "Professor", quiz_type := "Digital",
                  deadline := 100, max_attempts := some 1,
                  is_published := true, is_active := true }],
    questions := [{ question_id := "Q1", quiz_id := "Z",
                    question_type := "MCQ", marks := 5, order_number := 1 }],
    options := [{ option_id := "o1", question_id := "Q1",
                  option_label := "A", is_correct := true, order_number := 1 },
                { option_id := "o2", question_id := "Q1",
                  option_label := "B", is_correct := false, order_number := 2 }],
    attempts := [⟨"A", "Z", "s", 1, 0, none, none, false⟩] }

/-- The answers submitted in the C1 witness: the correct option of Q1. -/
def exAns1 : List StudentAnswer := [⟨"Q1", some "o1", none⟩]

/-- Witness for C1 (amended): a concrete successful submission whose
stored score is the per-answer award sum. -/
theorem C1_autoscore_sum_witness :
    scoreOf (getOk (submit_digital_quiz exDB1 "A" exAns1 "s" 7) DB.empty) "A" =
      some ((exAns1.map (answerAward exDB1)).sum) :=
  C1_autoscore_sum exDB1 "A" exAns1 "s" 7
    (getOk (submit_digital_quiz exDB1 "A" exAns1 "s" 7) DB.empty) rfl

/-- Example state for the C1 counterexample: quiz `Z` has two MCQ
questions `Q1` (marks 5, correct option `o1a`) and `Q2` (marks 3,
correct option `o2a`); student `s` has an in-progress attempt `A`. -/
def exDB1c : DB :=
  { DB.empty with
    quizzes := [{ quiz_id := "Z", offering_id := "o", created_by_id := "t",
                  created_by_role := "Professor", quiz_type := "Digital",
                  deadline := 100, max_attempts := some 1,
                  is_published := true, is_active := true }],
    questions := [{ question_id := "Q1", quiz_id := "Z",
                    question_type := "MCQ", marks := 5, order_number := 1 },
                  { question_id := "Q2", quiz_id := "Z",
                    question_type := "MCQ", marks := 3, order_number := 2 }],
    options := [{ option_id := "o1a", question_id := "Q1",
                  option_label := "A", is_correct := true, order_number := 1 },
                { option_id := "o2a", question_id := "Q2",
                  option_label := "A", is_correct := true, order_number := 1 }],
    attempts := [⟨"A", "Z", "s", 1, 0, none, none, false⟩] }

/-- The adversarial answer of the C1 counterexample: it answers `Q1` but
selects `o2a`, the correct option **of the other question** `Q2`. -/
def exAns1c : List StudentAnswer := [⟨"Q1", some "o2a", none⟩]

/-- Counterexample to C1 as stated: the submission succeeds and stores
score 5 (the code only checks the selected option's global `is_correct`
flag), while the claim's sum — marks over questions of the quiz whose
answer selects the option flagged correct *for that same question* — is
0.  The stored score differs from the claimed sum. -/
theorem C1_counterexample :
    (submit_digital_quiz exDB1c "A" exAns1c "s" 9).isOk = true ∧
    scoreOf (getOk (submit_digital_quiz exDB1c "A" exAns1c "s" 9) DB.empty) "A" =
      some 5 ∧
    specAutoScore exDB1c "Z" exAns1c = 0 ∧
    scoreOf (getOk (submit_digital_quiz exDB1c "A" exAns1c "s" 9) DB.empty) "A" ≠
      some (specAutoScore exDB1c "Z" exAns1c) := by
  refine ⟨rfl, ?_, ?_, ?_⟩
  · norm_num +decide [submit_digital_quiz, submit_attempt, gradeLoop, getOk, scoreOf,
      exDB1c, exAns1c, get_question_by_id, lookupOption, answerKeys, DB.empty,
      List.find?]
  · norm_num +decide [specAutoScore, correctOptionOf, exDB1c, exAns1c, List.find?]
  · norm_num +decide [submit_digital_quiz, submit_attempt, gradeLoop, getOk, scoreOf,
      specAutoScore, correctOptionOf, exDB1c, exAns1c, get_question_by_id,
      lookupOption, answerKeys, DB.empty, List.find?]

/-- Witness for C2 (amended): the same concrete successful submission as
the C1 witness records exactly the verdict rows. -/
theorem C2_recorded_verdicts_witness :
    (getOk (submit_digital_quiz exDB1 "A" exAns1 "s" 7) DB.empty).quiz_answers =
      exDB1.quiz_answers ++ exAns1.filterMap (fun a =>
        (answerVerdict exDB1 a).map (fun v =>
          { attempt_id := "A", question_id := a.question_id,
            selected_option_id := a.selected_option_id,
            answer_text := a.answer_text,
            awarded_marks := v.1, is_correct := v.2 })) :=
  C2_recorded_verdicts exDB1 "A" exAns1 "s" 7
    (getOk (submit_digital_quiz exDB1 "A" exAns1 "s" 7) DB.empty) rfl

/-- Example state for the C2 counterexample: quiz `Z` with MCQ `Q1`
(marks 5, correct `o1a`, wrong `o1b`) and Paragraph `Q2` (marks 5), and
an in-progress attempt `A` of student `s`. -/
def exDB2c : DB :=
  { DB.empty with
    quizzes := [{ quiz_id := "Z", offering_id := "o", created_by_id := "t",
                  created_by_role := "Professor", quiz_type := "Digital",
                  deadline := 100, max_attempts := some 1,
                  is_published := true, is_active := true }],
    questions := [{ question_id := "Q1", quiz_id := "Z",
                    question_type := "MCQ", marks := 5, order_number := 1 },
                  { question_id := "Q2", quiz_id := "Z",
                    question_type := "Paragraph", marks := 5, order_number := 2 }],
    options := [{ option_id := "o1a", question_id := "Q1",
                  option_label := "A", is_correct := true, order_number := 1 },
                { option_id := "o1b", question_id := "Q1",
                  option_label := "B", is_correct := false, order_number := 2 }],
    attempts := [⟨"A", "Z", "s", 1, 0, none, none, false⟩] }

/-- The answers of the C2 counterexample: the wrong option for `Q1` and
free text for the Paragraph `Q2`. -/
def exAns2c : List StudentAnswer :=
  [⟨"Q1", some "o1b", none⟩, ⟨"Q2", none, some "essay"⟩]

/-- Counterexample to C2 as stated: the wrong MCQ answer is recorded with
`is_correct = NULL` (not `false`), and the Paragraph answer is recorded
with `awarded_marks = 0.0` (not `NULL`). -/
theorem C2_counterexample :
    (submit_digital_quiz exDB2c "A" exAns2c "s" 9).isOk = true ∧
    (getOk (submit_digital_quiz exDB2c "A" exAns2c "s" 9) DB.empty).quiz_answers.map
        (fun r => (r.awarded_marks, r.is_correct)) =
      [(some 0, none), (some 0, none)] ∧
    ((none : Option Bool) ≠ some false ∧ (some (0 : Rat)) ≠ (none : Option Rat)) := by
  refine ⟨rfl, ?_, by simp, by simp⟩
  norm_num +decide [submit_digital_quiz, submit_attempt, gradeLoop, getOk,
    exDB2c, exAns2c, get_question_by_id, lookupOption, answerKeys, DB.empty,
    List.find?]

/-! ### C5: at most one file submission per (assessment, student) -/

/-- C5 (amended).  A second `submitFileWork` by the same student never
succeeds and creates nothing; it fails `Conflict` when the call reaches
the duplicate check — i.e. while the deadline has not passed (and, on the
file-quiz path, with a valid file) — but fails `BadRequest` instead when
the deadline has already passed.  A successful submit implies no prior
submission existed and leaves exactly one for the pair. -/
theorem C5_one_submission_per_pair (db : DB) (now : Int) :
    (∀ aid sid fid subid a s, get_assignment_by_id db aid = some a →
      get_submission db aid sid = some s →
      ((¬a.deadline < now →
        submit_assignment db aid fid sid subid now =
          .error (.conflict "You have already submitted this assignment")) ∧
       (a.deadline < now →
        submit_assignment db aid fid sid subid now =
          .error (.badRequest "Assignment deadline has passed")))) ∧
    (∀ qid sid fid subid quiz f, get_quiz_by_id db qid = some quiz →
      quiz.quiz_type = "FileUpload" → ¬quiz.deadline < now →
      get_file_by_id db fid = some f → f.uploaded_by = sid →
      ¬(db.quiz_file_submissions.filter (fun t =>
          t.quiz_id == qid && t.student_id == sid)).isEmpty →
      submit_file_quiz db qid fid sid subid now =
        .error (.conflict "You have already submitted this quiz")) ∧
    (∀ aid sid fid subid db1,
      submit_assignment db aid fid sid subid now = .ok db1 →
      submissionCount db aid sid = 0 ∧ submissionCount db1 aid sid = 1) := by
  refine ⟨?_, ?_, ?_⟩
  · intro aid sid fid subid a s ha hs
    constructor
    · intro hdl
      unfold submit_assignment
      rw [ha]
      dsimp only
      rw [if_neg hdl, hs]
    · intro hdl
      unfold submit_assignment
      rw [ha]
      dsimp only
      rw [if_pos hdl]
  · intro qid sid fid subid quiz f hq htype hdl hf hup hne
    unfold submit_file_quiz
    rw [hq]
    dsimp only
    rw [if_neg (by simp [htype]), if_neg hdl, hf]
    dsimp only
    rw [if_neg (by simp [hup])]
    unfold repo_submit_file_quiz
    rw [if_neg hne]
  · intro aid sid fid subid db1 hok
    unfold submit_assignment at hok
    cases ha : get_assignment_by_id db aid with
    | none => rw [ha] at hok; simp at hok
    | some a =>
      rw [ha] at hok
      by_cases hdl : a.deadline < now
      · simp [hdl] at hok
      · simp only [if_neg hdl] at hok
        cases hs : get_submission db aid sid with
        | some s => rw [hs] at hok; simp at hok
        | none =>
          rw [hs] at hok
          have hnil : db.assignment_submissions.filter (fun t =>
              t.assignment_id == aid && t.student_id == sid) = [] := by
            have := hs
            unfold get_submission at this
            exact List.head?_eq_none_iff.mp this
          have hcount0 : submissionCount db aid sid = 0 := by
            unfold submissionCount
            rw [hnil]
            rfl
          refine ⟨hcount0, ?_⟩
          cases hf : get_file_by_id db fid with
          | none => rw [hf] at hok; simp at hok
          | some f =>
            rw [hf] at hok
            by_cases hown : f.uploaded_by ≠ sid
            · simp [hown] at hok
            · simp only [if_neg hown] at hok
              unfold repo_submit_assignment at hok
              by_cases hemp : (db.assignment_submissions.filter (fun t =>
                  t.assignment_id == aid && t.student_id == sid)).isEmpty
              · simp only [if_pos hemp] at hok
                have hnotmem :
                    (⟨subid, aid, sid, fid, now, false⟩ : AssignmentSubmission) ∉
                      db.assignment_submissions := by
                  intro hmem
                  have := List.filter_eq_nil_iff.mp hnil _ hmem
                  simp at this
                simp only [Except.ok.injEq] at hok
                subst hok
                unfold submissionCount
                simp [List.filter_append, map_update_not_mem _ _ _ hnotmem, hnil]
              · simp only [if_neg hemp] at hok
                simp at hok

/-- Example state for the C5 counterexample: assignment `A` (deadline 10)
already has a submission by student `s`. -/
def exDB5 : DB :=
  { DB.empty with
    assignments := [{ assignment_id := "A", offering_id := "o",
                      created_by_id := "t", created_by_role := "Professor",
                      reference_file_id := none, deadline := 10,
                      total_marks := 100, is_active := true }],
    assignment_submissions := [⟨"s1", "A", "s", "f0", 5, false⟩] }

/-- Counterexample to C5 as stated: a second submit by the same student,
issued after the deadline, fails `BadRequest`, not `Conflict` — the
deadline check runs before the duplicate check. -/
theorem C5_counterexample :
    (get_submission exDB5 "A" "s").isSome = true ∧
    submit_assignment exDB5 "A" "f" "s" "x" 20 =
      .error (.badRequest "Assignment deadline has passed") ∧
    isConflict (submit_assignment exDB5 "A" "f" "s" "x" 20) = false :=
  ⟨rfl, rfl, rfl⟩

/-- Witness for C5 (amended): at instant 8 (before the deadline) the
duplicate submit fails `Conflict`. -/
theorem C5_one_submission_per_pair_witness :
    submit_assignment exDB5 "A" "f" "s" "x" 8 =
      .error (.conflict "You have already submitted this assignment") :=
  (((C5_one_submission_per_pair exDB5 8).1 "A" "s" "f" "x"
    { assignment_id := "A", offering_id := "o",
      created_by_id := "t", created_by_role := "Professor",
      reference_file_id := none, deadline := 10,
      total_marks := 100, is_active := true }
    ⟨"s1", "A", "s", "f0", 5, false⟩ rfl rfl).1) (by decide)

/-! ### C6: createAssessment deadline validation -/

/-- C6 (amended).  For a caller whose role is Professor or
AssociateTeacher and whose instructions/reference file, when given,
exists and is owned by the caller: a `deadline ≤ now` always fails
`BadRequest`, and a `deadline > now` always succeeds, appending the new
assessment and returning it — the created quiz carries the payload's
`is_published` flag (Draft only when the payload leaves it at its
default `false`; assignments have no published flag at all). -/
theorem C6_create_assessment_deadline (db : DB) (now : Int) :
    (∀ (data : QuizCreateData) (cid crole nid : String),
      (crole = "Professor" ∨ crole = "AssociateTeacher") →
      (∀ fid, data.instructions_file_id = some fid →
        ∃ f, get_file_by_id db fid = some f ∧ f.uploaded_by = cid) →
      ((data.deadline ≤ now →
        create_quiz db data cid crole nid now =
          .error (.badRequest "Deadline must be in the future")) ∧
       (now < data.deadline →
        ∃ q db1, create_quiz db data cid crole nid now = .ok (q, db1) ∧
          q.is_published = data.is_published ∧ q.deadline = data.deadline ∧
          db1.quizzes = db.quizzes ++ [q]))) ∧
    (∀ (data : AssignmentCreateData) (cid crole nid : String),
      (crole = "Professor" ∨ crole = "AssociateTeacher") →
      (∀ fid, data.reference_file_id = some fid →
        ∃ f, get_file_by_id db fid = some f ∧ f.uploaded_by = cid) →
      ((data.deadline ≤ now →
        create_assignment db data cid crole nid now =
          .error (.badRequest "Deadline must be in the future")) ∧
       (now < data.deadline →
        ∃ a db1, create_assignment db data cid crole nid now = .ok (a, db1) ∧
          a.deadline = data.deadline ∧
          db1.assignments = db.assignments ++ [a]))) := by
  constructor
  · intro data cid crole nid hrole hfile
    have hrole' : ¬(crole ≠ "Professor" ∧ crole ≠ "AssociateTeacher") := by
      rcases hrole with h | h <;> simp [h]
    constructor
    · intro hd
      unfold create_quiz
      rw [if_neg hrole', if_pos hd]
    · intro hd
      have hd' : ¬data.deadline ≤ now := by omega
      unfold create_quiz
      rw [if_neg hrole', if_neg hd']
      cases hifd : data.instructions_file_id with
      | none => exact ⟨_, _, rfl, rfl, rfl, rfl⟩
      | some fid =>
        obtain ⟨f, hf, hup⟩ := hfile fid hifd
        dsimp only
        have hf1 : get_file_by_id
            { db with quizzes := db.quizzes ++
              [{ quiz_id := nid, offering_id := data.offering_id,
                 created_by_id := cid, created_by_role := crole,
                 quiz_type := data.quiz_type, deadline := data.deadline,
                 max_attempts := data.max_attempts,
                 is_published := data.is_published, is_active := true }] }
            fid = some f := hf
        rw [hf1]
        dsimp only
        rw [if_neg (by simp [hup])]
        exact ⟨_, _, rfl, rfl, rfl, rfl⟩
  · intro data cid crole nid hrole hfile
    have hrole' : ¬(crole ≠ "Professor" ∧ crole ≠ "AssociateTeacher") := by
      rcases hrole with h | h <;> simp [h]
    constructor
    · intro hd
      unfold create_assignment
      rw [if_neg hrole', if_pos hd]
    · intro hd
      have hd' : ¬data.deadline ≤ now := by omega
      unfold create_assignment
      rw [if_neg hrole', if_neg hd']
      cases hifd : data.reference_file_id with
      | none => exact ⟨_, _, rfl, rfl, rfl⟩
      | some fid =>
        obtain ⟨f, hf, hup⟩ := hfile fid hifd
        dsimp only
        rw [hf]
        dsimp only
        rw [if_neg (by simp [hup])]
        exact ⟨_, _, rfl, rfl, rfl⟩

/-- Quiz payload for the C6 counterexample, past deadline. -/
def exData6a : QuizCreateData :=
  { offering_id := "o", quiz_type := "Digital", deadline := 0,
    max_attempts := some 1, is_published := false,
    instructions_file_id := none }

/-- Quiz payload for the C6 counterexample, future deadline but
`is_published = true` straight from the client. -/
def exData6b : QuizCreateData :=
  { offering_id := "o", quiz_type := "Digital", deadline := 10,
    max_attempts := some 1, is_published := true,
    instructions_file_id := none }

/-- Counterexample to C6 as stated: (1) with a Student caller a past
deadline fails `Forbidden`, not `BadRequest` — the role check runs
first; (2) with a teacher caller and future deadline the call succeeds
but the quiz is created already published (the payload's `is_published`
is copied onto the row), not in Draft. -/
theorem C6_counterexample :
    create_quiz DB.empty exData6a "u" "Student" "q1" 0 =
      .error (.forbidden "Only teachers can create quizzes") ∧
    exData6a.deadline ≤ 0 ∧
    (create_quiz DB.empty exData6b "t" "Professor" "q2" 0).isOk = true ∧
    (getOk (create_quiz DB.empty exData6b "t" "Professor" "q2" 0)
      (⟨"", "", "", "", "", 0, none, false, false⟩, DB.empty)).1.is_published =
      true :=
  ⟨rfl, by decide, rfl, rfl⟩

/-- Witness for C6 (amended): a Professor with a future deadline and no
file succeeds with the quiz appended. -/
theorem C6_create_assessment_deadline_witness :
    ∃ q db1, create_quiz DB.empty exData6a "t" "Professor" "q3" (-5) =
      .ok (q, db1) ∧
      q.is_published = exData6a.is_published ∧ q.deadline = exData6a.deadline ∧
      db1.quizzes = DB.empty.quizzes ++ [q] :=
  (((C6_create_assessment_deadline DB.empty (-5)).1 exData6a "t" "Professor" "q3"
    (Or.inl rfl)) (fun fid h => by simp [exData6a] at h)).2 (by decide)

/-! ### C3: at most one grade per submission/attempt -/

/-- Example state for C3: attempt `att1` of quiz `Z`, completed and
ungraded. -/
def exDB3 : DB :=
  { DB.empty with attempts := [⟨"att1", "Z", "s", 1, 0, some 5, some 5, true⟩] }

/-- Example state for C3: the same attempt already carrying a grade. -/
def exDB3b : DB :=
  { exDB3 with quiz_grades := [⟨"g1", some "att1", none, "t", "Professor", 7⟩] }

/-- Example state for C3: a graded assignment submission. -/
def exDB3c : DB :=
  { DB.empty with
    assignment_submissions := [⟨"sub1", "A", "s", "f", 5, false⟩],
    assignment_grades := [⟨"g1", "sub1", "t", "Professor", 9⟩] }

/-- C3 (code bug, quiz path).  Evaluating `QuizService.grade_quiz` at the
failing inputs: (1)–(2) grading an ungraded attempt "succeeds" yet
inserts no `QuizGrade` row — grade creation is an unimplemented stub
behind placeholder comments; (3)–(4) grading an already-graded attempt
raises `BadRequestException`, not the `Conflict` the claim (and the
sibling assignment path) prescribe; (5) the assignment path does behave
as claimed: a second `grade_assignment` on a graded submission fails
`Conflict`. -/
theorem C3_grade_quiz_stub :
    grade_quiz exDB3 ⟨8, none⟩ "att1" "digital" "t" "Professor" = .ok exDB3 ∧
    (getOk (grade_quiz exDB3 ⟨8, none⟩ "att1" "digital" "t" "Professor")
      DB.empty).quiz_grades = [] ∧
    grade_quiz exDB3b ⟨8, none⟩ "att1" "digital" "t" "Professor" =
      .error (.badRequest "Invalid or already graded attempt") ∧
    isConflict (grade_quiz exDB3b ⟨8, none⟩ "att1" "digital" "t" "Professor") =
      false ∧
    grade_assignment exDB3c "sub1" ⟨9, none⟩ "t" "Professor" "g2" =
      .error (.conflict "This assignment has already been graded") :=
  ⟨rfl, rfl, rfl, rfl, rfl⟩

end LMS
